import Mathlib

/-!
Verification of the session-orchestration layer of the helin-eeg frontend.

The definitions below are a shallow embedding of the three Next.js API route
modules (`app/api/start/route.ts` — POST / DELETE / GET, the status route,
`app/api/feedback/route.ts`) and of the UI start handler in `app/page.tsx`.
File-system state (the `tmp/` documents `config.json`, `status.json`,
`feedback.json`) is modelled explicitly; the module-level process handles of
`start/route.ts` are a `SupState` record; the side effects of the POST route
are recorded as an ordered effect trace so that ordering claims (writes before
spawns) can be stated.
-/

namespace HelinEeg

/-- `SessionStatus.state` values, from `lib/types.ts`.  `break` is spelled
`brk` because `break` is reserved. -/
inductive SessionState
  | idle
  | practice
  | running
  | brk
  | completed
  | aborted
deriving DecidableEq, Repr

/-- `SessionStatus.phase` values, from `lib/types.ts`. -/
inductive Phase
  | baseline
  | cue
  | mi
  | rest
  | brk
  | none
deriving DecidableEq, Repr

/-- The `SessionStatus` document shape (`lib/types.ts`); numeric counters are
naturals, elapsed time a rational (JSON numbers written by the external
process). -/
structure SessionStatus where
  state : SessionState
  phase : Phase
  current_trial : Nat
  total_trials : Nat
  current_block : Nat
  total_blocks : Nat
  bad_trials : Nat
  elapsed_seconds : Rat
  output_file : String
deriving DecidableEq, Repr

/-- The canonical all-zero idle document served by the status GET route when
`status.json` is absent. -/
def idleStatus : SessionStatus :=
  { state := .idle, phase := .none, current_trial := 0, total_trials := 0,
    current_block := 0, total_blocks := 0, bad_trials := 0,
    elapsed_seconds := 0, output_file := "" }

/-- The zeroed-out aborted document written by the stimulus exit handler
(`start/route.ts` lines 87–100). -/
def zeroedAborted : SessionStatus :=
  { state := .aborted, phase := .none, current_trial := 0, total_trials := 0,
    current_block := 0, total_blocks := 0, bad_trials := 0,
    elapsed_seconds := 0, output_file := "" }

/-- Per-channel power readings (`ChannelFeedback` in `lib/types.ts`). -/
structure ChannelFeedback where
  mu_power : Rat
  beta_power : Rat
deriving DecidableEq, Repr

/-- The `FeedbackData` document shape (`lib/types.ts`). -/
structure FeedbackData where
  timestamp : Rat
  connected : Bool
  stream_name : Option String
  C3 : ChannelFeedback
  C4 : ChannelFeedback
  laterality_index : Rat
  mu_suppression : Rat
  error : Option String
deriving DecidableEq, Repr

/-- `DISCONNECTED_STATE` from `app/api/feedback/route.ts`. -/
def disconnectedState : FeedbackData :=
  { timestamp := 0, connected := false, stream_name := Option.none,
    C3 := { mu_power := 0, beta_power := 0 },
    C4 := { mu_power := 0, beta_power := 0 },
    laterality_index := 0, mu_suppression := 0,
    error := Option.some "Feedback not running" }

/-- State of `tmp/status.json` on disk: absent, present but not valid JSON
(`JSON.parse` throws), or a parsed `SessionStatus` document. -/
inductive StatusFileState
  | absent
  | corrupt
  | valid (s : SessionStatus)
deriving DecidableEq, Repr

/-- State of `tmp/feedback.json` on disk. -/
inductive FeedbackFileState
  | absent
  | corrupt
  | valid (d : FeedbackData)
deriving DecidableEq, Repr

/-- Per-phase timing parameters (`ExperimentConfig.timing`). -/
structure TimingConfig where
  baseline : Rat
  cue : Rat
  mi : Rat
  rest_min : Rat
  rest_max : Rat
deriving DecidableEq, Repr

/-- Block structure parameters (`ExperimentConfig.blocks`). -/
structure BlocksConfig where
  num_blocks : Nat
  trials_per_block : Nat
  practice_trials : Nat
  break_duration : Rat
deriving DecidableEq, Repr

/-- The fully typed `ExperimentConfig` the UI holds (`lib/types.ts`). -/
structure ExperimentConfig where
  participant_id : String
  session_number : Nat
  run_number : Nat
  device_frequency : Nat
  fullscreen : Bool
  screen : Nat
  show_feedback : Bool
  notes : String
  colors_left : String
  colors_right : String
  timing : TimingConfig
  blocks : BlocksConfig
deriving DecidableEq, Repr

/-- The JSON body the POST route parses with `request.json()`.  The route only
dereferences `config.blocks.*`; a body may lack the `blocks` object, in which
case the dereference throws a `TypeError`.  Other fields are carried through
verbatim into `config.json`. -/
structure StartBody where
  participant_id : String
  session_number : Nat
  run_number : Nat
  device_frequency : Nat
  fullscreen : Bool
  screen : Nat
  show_feedback : Bool
  notes : String
  colors_left : String
  colors_right : String
  timing : TimingConfig
  blocks : Option BlocksConfig
deriving DecidableEq, Repr

/-- `JSON.stringify(config)` of a UI config, as sent by `handleStart`. -/
def toStartBody (c : ExperimentConfig) : StartBody :=
  { participant_id := c.participant_id, session_number := c.session_number,
    run_number := c.run_number, device_frequency := c.device_frequency,
    fullscreen := c.fullscreen, screen := c.screen,
    show_feedback := c.show_feedback, notes := c.notes,
    colors_left := c.colors_left, colors_right := c.colors_right,
    timing := c.timing, blocks := Option.some c.blocks }

/-- The fresh status document the POST route writes before spawning
(`start/route.ts` lines 36–49). -/
def initialStatus (b : BlocksConfig) : SessionStatus :=
  { state := .practice, phase := .none, current_trial := 0,
    total_trials := b.trials_per_block, current_block := 0,
    total_blocks := b.num_blocks, bad_trials := 0, elapsed_seconds := 0,
    output_file := "" }

/-- A spawned child-process handle; `killed` mirrors `ChildProcess.killed`. -/
structure Proc where
  killed : Bool
deriving DecidableEq, Repr

/-- A handle is live when it is tracked (non-null) and not killed — the
condition `stimulusProcess && !stimulusProcess.killed`. -/
def procLive : Option Proc → Bool
  | Option.some p => !p.killed
  | Option.none => false

/-- The file-backed State Store: the three `tmp/` documents. -/
structure Store where
  configFile : Option StartBody
  statusFile : StatusFileState
  feedbackFile : FeedbackFileState
deriving DecidableEq, Repr

/-- The module-level mutable state of `start/route.ts` plus the State Store. -/
structure SupState where
  stimulus : Option Proc
  feedback : Option Proc
  processError : Option String
  processExited : Bool
  store : Store
deriving DecidableEq, Repr

/-- One side effect of the POST route, in program order. -/
inductive Effect
  | mkdirTmp
  | mkdirData
  | writeConfig (body : StartBody)
  | writeStatus (s : SessionStatus)
  | spawnStimulus
  | spawnFeedback
deriving DecidableEq, Repr

/-- Whether an effect spawns an external process. -/
def Effect.isSpawn : Effect → Bool
  | .spawnStimulus => true
  | .spawnFeedback => true
  | _ => false

/-- Whether an effect writes a State Store document. -/
def Effect.isStoreWrite : Effect → Bool
  | .writeConfig _ => true
  | .writeStatus _ => true
  | _ => false

/-- Replay one effect against the State Store. -/
def applyEffect (st : Store) : Effect → Store
  | .mkdirTmp => st
  | .mkdirData => st
  | .writeConfig body => { st with configFile := Option.some body }
  | .writeStatus s => { st with statusFile := .valid s }
  | .spawnStimulus => st
  | .spawnFeedback => st

/-- Replay a trace of effects against the State Store. -/
def applyEffects (tr : List Effect) (st : Store) : Store :=
  tr.foldl applyEffect st

/-- Result of the POST route, as the HTTP response it produces. -/
inductive PostResult
  | conflict (httpStatus : Nat) (msg : String)
  | serverError (httpStatus : Nat) (msg : String)
  | success
deriving DecidableEq, Repr

/-- The message of the `TypeError` thrown when `config.blocks` is undefined
and `config.blocks.trials_per_block` is dereferenced. -/
def blocksUndefinedMsg : String :=
  "Cannot read properties of undefined (reading trials_per_block)"

/-- `POST /api/start` (`start/route.ts` lines 15–150), as the ordered trace of
its file/spawn effects together with its HTTP result.  `stimulus` is the
tracked stimulus handle at entry; `exitedDuringSettle` records whether the
spawned process died within the 1500 ms settle window. -/
def POST_route (stimulus : Option Proc) (body : StartBody)
    (exitedDuringSettle : Bool) : List Effect × PostResult :=
  if procLive stimulus then
    ([], .conflict 409 "A session is already running")
  else
    match body.blocks with
    | Option.none =>
        ([.mkdirTmp, .mkdirData, .writeConfig body],
         .serverError 500 blocksUndefinedMsg)
    | Option.some b =>
        ([.mkdirTmp, .mkdirData, .writeConfig body,
          .writeStatus (initialStatus b), .spawnStimulus, .spawnFeedback],
         if exitedDuringSettle then
           .serverError 500 "Process exited immediately"
         else .success)

/-- Result of the DELETE (stop) route. -/
inductive StopResult
  | success
deriving DecidableEq, Repr

/-- `DELETE /api/start` (`start/route.ts` lines 152–186): if a live stimulus
handle is tracked, read `status.json` (null on absence or parse failure), kill
both processes, delete `feedback.json`, and rewrite the status to `aborted`
preserving its other fields — unless it was unreadable or already terminal.
Always answers `{success: true}`. -/
def DELETE_route (st : SupState) : SupState × StopResult :=
  if procLive st.stimulus then
    let currentStatus : Option SessionStatus :=
      match st.store.statusFile with
      | .valid s => Option.some s
      | _ => Option.none
    let feedback1 : Option Proc :=
      if procLive st.feedback then Option.none else st.feedback
    let store1 : Store := { st.store with feedbackFile := .absent }
    let store2 : Store :=
      match currentStatus with
      | Option.some s =>
          if s.state ≠ .aborted ∧ s.state ≠ .completed then
            { store1 with
                statusFile := .valid { s with state := .aborted, phase := .none } }
          else store1
      | Option.none => store1
    ({ st with stimulus := Option.none, feedback := feedback1, store := store2 },
     .success)
  else (st, .success)

/-- The stimulus process exit handler (`start/route.ts` lines 77–105).
`code` is the exit code (`none` models a null code), `stderrTail` the last 500
bytes of captured stderr.  On a non-zero, non-null code it records the failure
reason and writes the zeroed aborted document — unless the persisted status is
already terminal (or the file is unparseable, in which case the caught parse
error suppresses the write). -/
def stimulusExitHandler (code : Option Int) (stderrTail : String)
    (st : SupState) : SupState :=
  let st1 : SupState := { st with processExited := true }
  let st2 : SupState :=
    if code ≠ Option.some 0 ∧ code ≠ Option.none then
      let reason : String :=
        if stderrTail = "" then "Process exited with code " ++ toString code
        else stderrTail
      let st' : SupState := { st1 with processError := Option.some reason }
      match st'.store.statusFile with
      | .absent =>
          { st' with store := { st'.store with statusFile := .valid zeroedAborted } }
      | .corrupt => st'
      | .valid s =>
          if s.state ≠ .aborted ∧ s.state ≠ .completed then
            { st' with store := { st'.store with statusFile := .valid zeroedAborted } }
          else st'
    else st1
  { st2 with stimulus := Option.none }

/-- Response of the status GET route. -/
inductive StatusGetResult
  | doc (s : SessionStatus)
  | errorResp (httpStatus : Nat) (msg : String)
deriving DecidableEq, Repr

/-- The status GET route: idle default when `status.json` is absent, the
parsed document when readable, and a 500 error when `JSON.parse` (or the
read) throws. -/
def GET_status : StatusFileState → StatusGetResult
  | .absent => .doc idleStatus
  | .corrupt => .errorResp 500 "Failed to read status"
  | .valid s => .doc s

/-- Response of the feedback GET route. -/
inductive FeedbackGetResult
  | doc (d : FeedbackData)
  | errorResp (httpStatus : Nat) (msg : String)
deriving DecidableEq, Repr

/-- The feedback GET route (`app/api/feedback/route.ts`): the disconnected
default when `feedback.json` is absent, the parsed document when readable, and
a 500 error when parsing throws. -/
def GET_feedback : FeedbackFileState → FeedbackGetResult
  | .absent => .doc disconnectedState
  | .corrupt => .errorResp 500 "Failed to read feedback"
  | .valid d => .doc d

/-- The ECMAScript white-space and line-terminator set trimmed by
`String.prototype.trim`. -/
def jsWhitespaceChar (c : Char) : Bool :=
  c.toNat = 32 || c.toNat = 9 || c.toNat = 10 || c.toNat = 11 ||
  c.toNat = 12 || c.toNat = 13 || c.toNat = 160 || c.toNat = 65279 ||
  c.toNat = 5760 || (decide (8192 ≤ c.toNat) && decide (c.toNat ≤ 8202)) ||
  c.toNat = 8232 || c.toNat = 8233 || c.toNat = 8239 || c.toNat = 8287 ||
  c.toNat = 12288

/-- JavaScript `String.prototype.trim`. -/
def jsTrim (s : String) : String :=
  String.mk (((s.data.dropWhile jsWhitespaceChar).reverse.dropWhile
    jsWhitespaceChar).reverse)

/-- Outcome of the UI `handleStart` flow: either a client-side rejection (no
request is issued) or the POST route's response. -/
inductive StartOutcome
  | uiRejected (msg : String)
  | postResult (r : PostResult)
deriving DecidableEq, Repr

/-- `handleStart` in `app/page.tsx` (lines 98–136) composed with the POST
route: the three client-side validations run first and return without issuing
any request when they fail. -/
def startFlow (stimulus : Option Proc) (cfg : ExperimentConfig)
    (exitedDuringSettle : Bool) : List Effect × StartOutcome :=
  if jsTrim cfg.participant_id = "" then
    ([], .uiRejected "Participant ID is required")
  else if cfg.blocks.trials_per_block % 2 ≠ 0 then
    ([], .uiRejected "Trials per block must be even (balanced left/right)")
  else if cfg.timing.rest_min ≥ cfg.timing.rest_max then
    ([], .uiRejected "Rest Min must be less than Rest Max")
  else
    let pr := POST_route stimulus (toStartBody cfg) exitedDuringSettle
    (pr.1, .postResult pr.2)

/-! Concrete fixtures used by witnesses and counterexamples. -/

/-- Default timing values of `DEFAULT_CONFIG`. -/
def sampleTiming : TimingConfig :=
  { baseline := 2, cue := 1, mi := 4, rest_min := 2, rest_max := 3 }

/-- Default block values of `DEFAULT_CONFIG`. -/
def sampleBlocks : BlocksConfig :=
  { num_blocks := 2, trials_per_block := 50, practice_trials := 10,
    break_duration := 120 }

/-- A well-formed UI config. -/
def sampleConfig : ExperimentConfig :=
  { participant_id := "P001", session_number := 1, run_number := 1,
    device_frequency := 250, fullscreen := false, screen := 0,
    show_feedback := false, notes := "", colors_left := "#4A9FD9",
    colors_right := "#E8B931", timing := sampleTiming, blocks := sampleBlocks }

/-- The JSON body of `sampleConfig`. -/
def sampleBody : StartBody := toStartBody sampleConfig

/-- A State Store with no documents present. -/
def emptyStore : Store :=
  { configFile := Option.none, statusFile := .absent, feedbackFile := .absent }

/-- A terminal `completed` status document, as the external process writes on
normal protocol completion. -/
def completedDoc : SessionStatus :=
  { state := .completed, phase := .none, current_trial := 100,
    total_trials := 100, current_block := 2, total_blocks := 2,
    bad_trials := 4, elapsed_seconds := 1800,
    output_file := "data/sub-P001_ses-1_run-1.xdf" }

/-- Supervisor state holding a live stimulus handle over a `completed`
document. -/
def completedState : SupState :=
  { stimulus := Option.some { killed := false }, feedback := Option.none,
    processError := Option.none, processExited := false,
    store := { configFile := Option.some sampleBody,
               statusFile := .valid completedDoc, feedbackFile := .absent } }

/-- A mid-session `running` status document with nonzero counters. -/
def midSessionDoc : SessionStatus :=
  { state := .running, phase := .mi, current_trial := 25, total_trials := 50,
    current_block := 1, total_blocks := 2, bad_trials := 3,
    elapsed_seconds := 120, output_file := "data/sub-P001_ses-1_run-1.xdf" }

/-- Supervisor state holding live stimulus and feedback handles over the
mid-session document. -/
def midSessionState : SupState :=
  { stimulus := Option.some { killed := false },
    feedback := Option.some { killed := false },
    processError := Option.none, processExited := false,
    store := { configFile := Option.some sampleBody,
               statusFile := .valid midSessionDoc,
               feedbackFile := .valid disconnectedState } }

/-! Claims. -/

/-- C1: if the persisted status document is `completed` or `aborted` when the
stimulus exit handler fires with a non-zero, non-null exit code, the handler
leaves `status.json` unchanged (it does not overwrite it with an `aborted`
document). -/
theorem exit_handler_preserves_terminal_status
    (st : SupState) (s : SessionStatus) (code : Option Int) (tail : String)
    (hs : st.store.statusFile = .valid s)
    (hterm : s.state = .completed ∨ s.state = .aborted)
    (h0 : code ≠ Option.some 0) (hn : code ≠ Option.none) :
    (stimulusExitHandler code tail st).store.statusFile
      = st.store.statusFile := by
  rcases hterm with h | h <;>
    simp [stimulusExitHandler, hs, h0, hn, h]

/-- C1 witness: at a concrete live-session state whose document is
`completed`, an exit with code 1 leaves the status file unchanged. -/
theorem exit_handler_preserves_terminal_status_witness :
    (stimulusExitHandler (Option.some 1) "Traceback" completedState).store.statusFile
      = completedState.store.statusFile :=
  exit_handler_preserves_terminal_status completedState completedDoc
    (Option.some 1) "Traceback" rfl (Or.inl rfl) (by decide) (by decide)

/-- C2: calling start while a live stimulus handle is tracked returns a 409
conflict with the message "A session is already running", with an empty effect
trace, so the State Store (in particular `config.json` and the first session's
`status.json`) is unchanged. -/
theorem start_conflict_no_writes
    (p : Option Proc) (body : StartBody) (e : Bool) (store : Store)
    (hlive : procLive p = true) :
    POST_route p body e = ([], .conflict 409 "A session is already running") ∧
    applyEffects (POST_route p body e).1 store = store := by
  refine ⟨?_, ?_⟩ <;> simp [POST_route, hlive, applyEffects]

/-- C2 witness: a second start against a live (unkilled) handle at concrete
inputs conflicts and leaves a concrete store unchanged. -/
theorem start_conflict_no_writes_witness :
    POST_route (Option.some { killed := false }) sampleBody false
        = ([], .conflict 409 "A session is already running") ∧
    applyEffects (POST_route (Option.some { killed := false }) sampleBody false).1
        completedState.store = completedState.store :=
  start_conflict_no_writes (Option.some { killed := false }) sampleBody false
    completedState.store (by decide)

/-- C3: for a tracked live session whose persisted status is readable and not
terminal, stop rewrites `status.json` to the same document with
`state = aborted` and `phase = none`, preserving every other field, deletes
`feedback.json`, clears the stimulus handle, and stop always returns
success. -/
theorem stop_preserves_progress
    (st : SupState) (s : SessionStatus)
    (hlive : procLive st.stimulus = true)
    (hs : st.store.statusFile = .valid s)
    (hc : s.state ≠ .completed) (ha : s.state ≠ .aborted) :
    (DELETE_route st).2 = .success ∧
    (∀ u : SupState, (DELETE_route u).2 = .success) ∧
    (DELETE_route st).1.stimulus = Option.none ∧
    (DELETE_route st).1.store.feedbackFile = .absent ∧
    (DELETE_route st).1.store.statusFile
        = .valid { s with state := .aborted, phase := .none } ∧
    (∃ d, (DELETE_route st).1.store.statusFile = .valid d ∧
      d.state = .aborted ∧ d.phase = .none ∧
      d.current_trial = s.current_trial ∧ d.total_trials = s.total_trials ∧
      d.current_block = s.current_block ∧ d.total_blocks = s.total_blocks ∧
      d.bad_trials = s.bad_trials ∧ d.elapsed_seconds = s.elapsed_seconds ∧
      d.output_file = s.output_file) := by
  refine ⟨?_, ?_, ?_, ?_, ?_, ?_⟩
  · simp [DELETE_route, hlive]
  · intro u
    by_cases hu : procLive u.stimulus <;> simp [DELETE_route, hu]
  · simp [DELETE_route, hlive]
  · simp [DELETE_route, hlive, hs, ha, hc]
  · simp [DELETE_route, hlive, hs, ha, hc]
  · refine ⟨{ s with state := .aborted, phase := .none }, ?_,
      rfl, rfl, rfl, rfl, rfl, rfl, rfl, rfl, rfl⟩
    simp [DELETE_route, hlive, hs, ha, hc]

/-- C3 witness: stopping the concrete mid-session state flips only state and
phase, keeping `current_trial = 25` and the other counters. -/
theorem stop_preserves_progress_witness :
    (DELETE_route midSessionState).1.store.statusFile
        = .valid { midSessionDoc with state := .aborted, phase := .none } ∧
    (DELETE_route midSessionState).1.store.feedbackFile = .absent ∧
    (DELETE_route midSessionState).2 = .success :=
  ⟨(stop_preserves_progress midSessionState midSessionDoc (by decide) rfl
      (by decide) (by decide)).2.2.2.2.1,
   (stop_preserves_progress midSessionState midSessionDoc (by decide) rfl
      (by decide) (by decide)).2.2.2.1,
   (stop_preserves_progress midSessionState midSessionDoc (by decide) rfl
      (by decide) (by decide)).1⟩

/-- C9: when stop runs with a live tracked stimulus process but `status.json`
is absent or unparseable, it clears the handles (no live handle remains),
deletes `feedback.json`, writes no status document (`status.json` is exactly
as before), leaves `config.json` alone, and still returns success. -/
theorem stop_unreadable_status_no_write
    (st : SupState)
    (hlive : procLive st.stimulus = true)
    (hs : st.store.statusFile = .absent ∨ st.store.statusFile = .corrupt) :
    (DELETE_route st).2 = .success ∧
    (DELETE_route st).1.stimulus = Option.none ∧
    procLive (DELETE_route st).1.feedback = false ∧
    (DELETE_route st).1.store.feedbackFile = .absent ∧
    (DELETE_route st).1.store.statusFile = st.store.statusFile ∧
    (DELETE_route st).1.store.configFile = st.store.configFile := by
  have pn : procLive Option.none = false := rfl
  refine ⟨?_, ?_, ?_, ?_, ?_, ?_⟩
  · simp [DELETE_route, hlive]
  · simp [DELETE_route, hlive]
  · by_cases hf : procLive st.feedback = true
    · simp [DELETE_route, hlive, hf, pn]
    · simp only [Bool.not_eq_true] at hf
      simp [DELETE_route, hlive, hf]
  · rcases hs with h | h <;> simp [DELETE_route, hlive, h]
  · rcases hs with h | h <;> simp [DELETE_route, hlive, h]
  · rcases hs with h | h <;> simp [DELETE_route, hlive, h]

/-- C9 witness: stopping a concrete live session whose status file is corrupt
kills and clears the handles, deletes feedback, and leaves the corrupt status
file untouched. -/
theorem stop_unreadable_status_no_write_witness :
    (DELETE_route { midSessionState with
        store := { midSessionState.store with statusFile := .corrupt } }).2
      = .success ∧
    (DELETE_route { midSessionState with
        store := { midSessionState.store with statusFile := .corrupt } }).1.store.statusFile
      = StatusFileState.corrupt :=
  ⟨(stop_unreadable_status_no_write _ (by decide) (Or.inr rfl)).1,
   (stop_unreadable_status_no_write _ (by decide) (Or.inr rfl)).2.2.2.2.1⟩

/-- C4 counterexample: on the abnormal-exit termination path the reconciliation
does NOT preserve the counter fields.  From the mid-session `running` document
with `current_trial = 25`, the exit handler fired with code 1 writes the
zeroed-out aborted document (`current_trial = 0`), not the counter-preserving
update the claim requires. -/
theorem exit_handler_zeroes_counters_cex :
    (stimulusExitHandler (Option.some 1) "" midSessionState).store.statusFile
        = .valid zeroedAborted ∧
    zeroedAborted.current_trial = 0 ∧
    midSessionDoc.current_trial = 25 ∧
    (stimulusExitHandler (Option.some 1) "" midSessionState).store.statusFile
        ≠ .valid { midSessionDoc with state := .aborted, phase := .none } := by
  refine ⟨by decide, rfl, rfl, by decide⟩

/-- C4 amended: the two termination paths reconcile differently.  Neither path
ever downgrades a terminal (`completed`/`aborted`) document; on explicit stop a
non-terminal document keeps all its counters and only `state`/`phase` move;
but on abnormal process exit a non-terminal document is replaced by the
zeroed-out aborted document rather than preserved. -/
theorem reconciliation_paths
    (st : SupState) (s : SessionStatus) (code : Option Int) (tail : String)
    (hlive : procLive st.stimulus = true)
    (hs : st.store.statusFile = .valid s)
    (h0 : code ≠ Option.some 0) (hn : code ≠ Option.none) :
    ((s.state ≠ .completed ∧ s.state ≠ .aborted) →
      (DELETE_route st).1.store.statusFile
          = .valid { s with state := .aborted, phase := .none } ∧
      (stimulusExitHandler code tail st).store.statusFile
          = .valid zeroedAborted) ∧
    ((s.state = .completed ∨ s.state = .aborted) →
      (DELETE_route st).1.store.statusFile = .valid s ∧
      (stimulusExitHandler code tail st).store.statusFile = .valid s) := by
  constructor
  · rintro ⟨hc, ha⟩
    constructor
    · simp [DELETE_route, hlive, hs, hc, ha]
    · simp [stimulusExitHandler, hs, h0, hn, hc, ha]
  · rintro (h | h)
    · constructor
      · simp [DELETE_route, hlive, hs, h]
      · simp [stimulusExitHandler, hs, h0, hn, h]
    · constructor
      · simp [DELETE_route, hlive, hs, h]
      · simp [stimulusExitHandler, hs, h0, hn, h]

/-- C4 amended witness: at the concrete mid-session state, stop preserves the
document's counters while an exit with code 1 zeroes them. -/
theorem reconciliation_paths_witness :
    (midSessionDoc.state ≠ SessionState.completed ∧
        midSessionDoc.state ≠ SessionState.aborted) ∧
    ((midSessionDoc.state ≠ SessionState.completed ∧
        midSessionDoc.state ≠ SessionState.aborted) →
      (DELETE_route midSessionState).1.store.statusFile
          = .valid { midSessionDoc with state := .aborted, phase := .none } ∧
      (stimulusExitHandler (Option.some 1) "" midSessionState).store.statusFile
          = .valid zeroedAborted) :=
  ⟨by decide,
   (reconciliation_paths midSessionState midSessionDoc (Option.some 1) ""
      (by decide) rfl (by decide) (by decide)).1⟩

/-- C5: for a dead/untracked stimulus handle and any body whose `blocks`
object is present, the POST route's effect trace writes `config.json` and then
the fresh practice status document (totals copied from the config, all other
counters zero) strictly before the two spawn effects, and replaying the trace
leaves exactly those two documents in the store. -/
theorem start_initializes_before_spawn
    (p : Option Proc) (body : StartBody) (b : BlocksConfig) (e : Bool)
    (hdead : procLive p = false) (hb : body.blocks = Option.some b) :
    (POST_route p body e).1 =
      [.mkdirTmp, .mkdirData, .writeConfig body,
       .writeStatus (initialStatus b), .spawnStimulus, .spawnFeedback] ∧
    initialStatus b = { state := .practice, phase := .none,
                        current_trial := 0,
                        total_trials := b.trials_per_block,
                        current_block := 0, total_blocks := b.num_blocks,
                        bad_trials := 0, elapsed_seconds := 0,
                        output_file := "" } ∧
    (∀ ef ∈ ((POST_route p body e).1.take 4), ef.isSpawn = false) ∧
    (∀ store : Store,
      (applyEffects (POST_route p body e).1 store).configFile
          = Option.some body ∧
      (applyEffects (POST_route p body e).1 store).statusFile
          = .valid (initialStatus b)) := by
  refine ⟨?_, rfl, ?_, ?_⟩
  · simp [POST_route, hdead, hb]
  · intro ef hef
    simp only [POST_route, hdead, Bool.false_eq_true, if_false, hb] at hef
    simp only [List.take, List.mem_cons, List.not_mem_nil, or_false] at hef
    rcases hef with rfl | rfl | rfl | rfl <;> rfl
  · intro store
    simp [POST_route, hdead, hb, applyEffects, applyEffect]

/-- C5 witness: with no tracked process and the default well-formed config,
the trace is exactly the two writes followed by the two spawns, and the fresh
status document copies `trials_per_block = 50` and `num_blocks = 2`. -/
theorem start_initializes_before_spawn_witness :
    procLive Option.none = false ∧
    (POST_route Option.none sampleBody false).1 =
      [.mkdirTmp, .mkdirData, .writeConfig sampleBody,
       .writeStatus (initialStatus sampleBlocks), .spawnStimulus,
       .spawnFeedback] :=
  ⟨rfl, (start_initializes_before_spawn Option.none sampleBody sampleBlocks
    false rfl rfl).1⟩

/-- C6: a config with an odd `trials_per_block`, or with
`rest_min ≥ rest_max`, is rejected by the start flow before any request is
issued: the effect trace is empty, so nothing is spawned and no state document
is written. -/
theorem start_validation_rejects
    (p : Option Proc) (cfg : ExperimentConfig) (e : Bool)
    (h : cfg.blocks.trials_per_block % 2 = 1 ∨
         cfg.timing.rest_min ≥ cfg.timing.rest_max) :
    ∃ msg, startFlow p cfg e = ([], .uiRejected msg) := by
  unfold startFlow
  by_cases h1 : jsTrim cfg.participant_id = ""
  · exact ⟨"Participant ID is required", by rw [if_pos h1]⟩
  · rw [if_neg h1]
    rcases h with hodd | hrest
    · have h2 : cfg.blocks.trials_per_block % 2 ≠ 0 := by omega
      exact ⟨"Trials per block must be even (balanced left/right)",
        by rw [if_pos h2]⟩
    · by_cases h2 : cfg.blocks.trials_per_block % 2 ≠ 0
      · exact ⟨"Trials per block must be even (balanced left/right)",
          by rw [if_pos h2]⟩
      · exact ⟨"Rest Min must be less than Rest Max",
          by rw [if_neg h2, if_pos hrest]⟩

/-- A config with an odd number of trials per block. -/
def oddTrialsConfig : ExperimentConfig :=
  { sampleConfig with blocks := { sampleBlocks with trials_per_block := 51 } }

/-- A config whose rest range is inverted (`rest_min = 3 ≥ 2 = rest_max`). -/
def badRestConfig : ExperimentConfig :=
  { sampleConfig with
      timing := { sampleTiming with rest_min := 3, rest_max := 2 } }

/-- C6 witness: a config with 51 trials per block and a config with
`rest_min = 3 ≥ 2 = rest_max` are both rejected with an empty effect trace. -/
theorem start_validation_rejects_witness :
    oddTrialsConfig.blocks.trials_per_block % 2 = 1 ∧
    (∃ msg, startFlow Option.none oddTrialsConfig false
        = ([], .uiRejected msg)) ∧
    badRestConfig.timing.rest_min ≥ badRestConfig.timing.rest_max ∧
    (∃ msg, startFlow Option.none badRestConfig false
        = ([], .uiRejected msg)) :=
  ⟨by decide,
   start_validation_rejects Option.none oddTrialsConfig false
     (Or.inl (by decide)),
   by decide,
   start_validation_rejects Option.none badRestConfig false
     (Or.inr (by decide))⟩

/-- C7 counterexample: when the backing file is present but unparseable, both
read routes return a 500 error response, not the canonical default — refuting
"never an error response" for the unparseable case. -/
theorem corrupt_read_returns_error_cex :
    GET_status .corrupt = .errorResp 500 "Failed to read status" ∧
    GET_status .corrupt ≠ .doc idleStatus ∧
    GET_feedback .corrupt = .errorResp 500 "Failed to read feedback" ∧
    GET_feedback .corrupt ≠ .doc disconnectedState :=
  ⟨rfl, by decide, rfl, by decide⟩

/-- C7 amended: a read whose backing file is absent returns the canonical
default for that document type (the all-zero idle status; the disconnected
feedback snapshot with `connected = false` and an explanatory error), while a
read whose backing file is present but unparseable returns a 500 error
response; a readable document is returned as-is. -/
theorem read_degrades_to_default
    : GET_status .absent = .doc idleStatus ∧
    idleStatus.state = .idle ∧ idleStatus.current_trial = 0 ∧
    idleStatus.total_trials = 0 ∧ idleStatus.elapsed_seconds = 0 ∧
    GET_feedback .absent = .doc disconnectedState ∧
    disconnectedState.connected = false ∧
    disconnectedState.error = Option.some "Feedback not running" ∧
    GET_status .corrupt = .errorResp 500 "Failed to read status" ∧
    GET_feedback .corrupt = .errorResp 500 "Failed to read feedback" ∧
    (∀ s, GET_status (.valid s) = .doc s) ∧
    (∀ d, GET_feedback (.valid d) = .doc d) := by
  refine ⟨rfl, rfl, rfl, rfl, rfl, rfl, rfl, rfl, rfl, rfl,
    fun s => rfl, fun d => rfl⟩

/-- A request body that `request.json()` accepts but that has no `blocks`
object. -/
def noBlocksBody : StartBody :=
  { sampleBody with blocks := Option.none }

/-- C8: there is an accepted request body (one lacking `blocks`) for which the
POST route returns a 500 error yet has already overwritten `config.json`
before failing, while never writing a status document — the non-conflict error
path is not atomic with respect to the State Store. -/
theorem start_error_after_config_write :
    (POST_route Option.none noBlocksBody false).2
        = .serverError 500 blocksUndefinedMsg ∧
    Effect.writeConfig noBlocksBody ∈ (POST_route Option.none noBlocksBody false).1 ∧
    (applyEffects (POST_route Option.none noBlocksBody false).1 emptyStore).configFile
        = Option.some noBlocksBody ∧
    (applyEffects (POST_route Option.none noBlocksBody false).1
        completedState.store).configFile = Option.some noBlocksBody ∧
    (∀ s, Effect.writeStatus s ∉ (POST_route Option.none noBlocksBody false).1) := by
  refine ⟨rfl, ?_, rfl, rfl, ?_⟩
  · simp [POST_route, noBlocksBody, sampleBody, toStartBody, procLive]
  · intro s hs
    simp [POST_route, noBlocksBody, sampleBody, toStartBody, procLive] at hs

/-- C10: for a config whose participant id is empty or all whitespace, the UI
start handler rejects with "Participant ID is required" and the effect trace is
empty: no request is issued, no process spawned, no state document written. -/
theorem blank_participant_rejected
    (p : Option Proc) (cfg : ExperimentConfig) (e : Bool)
    (h : ∀ c ∈ cfg.participant_id.data, jsWhitespaceChar c = true) :
    startFlow p cfg e = ([], .uiRejected "Participant ID is required") := by
  have ht : jsTrim cfg.participant_id = "" := by
    unfold jsTrim
    rw [List.dropWhile_eq_nil_iff.mpr h]
    decide
  unfold startFlow
  rw [if_pos ht]

/-- C10 witness: a participant id of two spaces is rejected client-side with
no effects. -/
theorem blank_participant_rejected_witness :
    startFlow Option.none { sampleConfig with participant_id := "  " } false
      = ([], .uiRejected "Participant ID is required") :=
  blank_participant_rejected Option.none
    { sampleConfig with participant_id := "  " } false (by decide)

end HelinEeg
